import Mathlib

/-!
Shallow embedding of the orbcode/libtrace trace-configuration library
(ITM, DWT and TPIU configurators, `src/libs/trace/include/orbcode/trace/itm.h`,
`src/libs/trace/include/orbcode/trace/dwt.h` and the TPIU header) together
with proofs of the specification claims.

Modelling conventions:
* Memory-mapped 32-bit registers are `Nat` values, truncated with `% 2 ^ 32`
  where the C code can produce wider values.
* Each peripheral's register file is a structure; a configuration call is a
  function from the old register state (and the options record) to the new
  register state.
* The stimulus-port data-path writes (`ITM->PORT[port].u8/u16/u32 = v`) are
  modelled as the list of port-register writes a call performs, in order.
  The busy-wait loops in the C code only *read* the port status register;
  the model captures the write trace of a call that returns (each FIFO
  eventually reports ready), which is what the claims quantify over.
* The target (ARM Cortex-M) is little-endian, so the `memcpy` of buffer
  bytes into a `uint32_t`/`uint16_t` is modelled as little-endian
  recomposition of the bytes.
-/

/-! ## CMSIS register-field constants

Bit positions and masks from the CMSIS `core_cmX.h` headers that the
library includes (the library itself only names them; the numeric values
are the architectural ones from the ARMv7-M reference manual). -/

def CoreDebug_DEMCR_TRCENA_Msk : Nat := 1 <<< 24

def ITM_TCR_TraceBusID_Pos : Nat := 16
def ITM_TCR_GTSFREQ_Pos : Nat := 10
def ITM_TCR_TSPrescale_Pos : Nat := 8
def ITM_TCR_DWTENA_Pos : Nat := 3
def ITM_TCR_SYNCENA_Pos : Nat := 2
def ITM_TCR_TSENA_Pos : Nat := 1
def ITM_TCR_ITMENA_Msk : Nat := 1

def DWT_CTRL_FOLDEVTENA_Pos : Nat := 21
def DWT_CTRL_LSUEVTENA_Pos : Nat := 20
def DWT_CTRL_SLEEPEVTENA_Pos : Nat := 19
def DWT_CTRL_EXCEVTENA_Pos : Nat := 18
def DWT_CTRL_CPIEVTENA_Pos : Nat := 17
def DWT_CTRL_EXCTRCENA_Pos : Nat := 16
def DWT_CTRL_PCSAMPLENA_Pos : Nat := 12
def DWT_CTRL_SYNCTAP_Pos : Nat := 10
def DWT_CTRL_CYCTAP_Pos : Nat := 9
def DWT_CTRL_POSTPRESET_Pos : Nat := 1
def DWT_CTRL_CYCCNTENA_Msk : Nat := 1

def DWT_FUNCTION_FUNCTION_Pos : Nat := 0
def DWT_FUNCTION_FUNCTION_Msk : Nat := 0xF
def DWT_FUNCTION_EMITRANGE_Pos : Nat := 5

def TPI_FFCR_EnFCont_Msk : Nat := 1 <<< 1

/-- C conditional expression `b ? 1 : 0`. -/
def boolToBit (b : Bool) : Nat := if b then 1 else 0

/-! ## ITM data model (`itm.h`) -/

/-- `ITMGlobalTimestampFrequency` enumeration from `itm.h`. -/
inductive ITMGlobalTimestampFrequency where
  | disabled
  | position7
  | position13
  | ifOutputFIFOEmpty
deriving DecidableEq

/-- Numeric value of the C enumerator (0, 1, 2, 3). -/
def ITMGlobalTimestampFrequency.toNat : ITMGlobalTimestampFrequency → Nat
  | .disabled => 0
  | .position7 => 1
  | .position13 => 2
  | .ifOutputFIFOEmpty => 3

/-- `ITMLocalTimestampPrescaler` enumeration from `itm.h`. -/
inductive ITMLocalTimestampPrescaler where
  | noPrescaling
  | divideBy4
  | divideBy10
  | divideBy64
deriving DecidableEq

/-- Numeric value of the C enumerator (0, 1, 2, 3). -/
def ITMLocalTimestampPrescaler.toNat : ITMLocalTimestampPrescaler → Nat
  | .noPrescaling => 0
  | .divideBy4 => 1
  | .divideBy10 => 2
  | .divideBy64 => 3

/-- `ITMOptions` configuration record from `itm.h`.  `TraceBusID` is a C
`int` (modelled for the non-negative range) and `EnabledStimulusPorts` a
`uint32_t`. -/
structure ITMOptions where
  TraceBusID : Nat
  GlobalTimestampFrequency : ITMGlobalTimestampFrequency
  LocalTimestampPrescaler : ITMLocalTimestampPrescaler
  EnableLocalTimestamp : Bool
  ForwardDWT : Bool
  EnableSyncPacket : Bool
  EnabledStimulusPorts : Nat

/-- The ITM-side registers touched by `itm.h` (`CoreDebug->DEMCR`,
`ITM->LAR`, `ITM->TCR`, `ITM->TER`), each a 32-bit register. -/
structure ITMRegs where
  DEMCR : Nat
  LAR : Nat
  TCR : Nat
  TER : Nat

/-- The `tcr` control word built by `ITMSetup` (`itm.h`, the sequence of
`tcr |= ...` statements, in source order). -/
def ITMTcrWord (o : ITMOptions) : Nat :=
  o.TraceBusID <<< ITM_TCR_TraceBusID_Pos
  ||| o.GlobalTimestampFrequency.toNat <<< ITM_TCR_GTSFREQ_Pos
  ||| o.LocalTimestampPrescaler.toNat <<< ITM_TCR_TSPrescale_Pos
  ||| boolToBit o.ForwardDWT <<< ITM_TCR_DWTENA_Pos
  ||| boolToBit o.EnableSyncPacket <<< ITM_TCR_SYNCENA_Pos
  ||| boolToBit o.EnableLocalTimestamp <<< ITM_TCR_TSENA_Pos
  ||| ITM_TCR_ITMENA_Msk

/-- `ITMSetup` from `itm.h`: enables TRCENA in `DEMCR`, unlocks the unit
via `LAR`, writes the built control word to `TCR` and then writes
`0xFFFFFFFF` to `TER` (the source writes the all-ones constant, not
`options->EnabledStimulusPorts`). -/
def ITMSetup (regs : ITMRegs) (o : ITMOptions) : ITMRegs :=
  { regs with
    DEMCR := regs.DEMCR ||| CoreDebug_DEMCR_TRCENA_Msk
    LAR := 0xC5ACCE55
    TCR := ITMTcrWord o % 2 ^ 32
    TER := 0xFFFFFFFF }

/-- Value of the C expression `(uint32_t)(1 << port)` under the shift
semantics in which only the low five bits of the shift amount matter
(shift amount taken modulo the 32-bit operand width). -/
def shl1Mod32 (port : Nat) : Nat := (1 <<< (port % 32)) % 2 ^ 32

/-- Value of the C expression `(uint32_t)(1 << port)` under the shift
semantics in which an over-wide shift produces zero. -/
def shl1Zero (port : Nat) : Nat := if port < 32 then 1 <<< port else 0

/-- `ITMIsPortEnabled` from `itm.h`, parameterised by the semantics
assigned to the (for `port >= 32` undefined) C expression `1 << port`:
`(ITM->TCR & ITM_TCR_ITMENA_Msk) != 0 && (ITM->TER & (1 << port)) != 0`. -/
def ITMIsPortEnabledSem (sem : Nat → Nat) (tcr ter port : Nat) : Bool :=
  (tcr &&& ITM_TCR_ITMENA_Msk != 0) && (ter &&& sem port != 0)

/-- `ITMIsPortEnabled` from `itm.h`: a pure function of the two register
values `ITM->TCR` and `ITM->TER` and the port number (the C body reads
no other state and has no side effect).  The shift is taken with the
modulo-32 semantics. -/
def ITMIsPortEnabled (tcr ter port : Nat) : Bool :=
  ITMIsPortEnabledSem shl1Mod32 tcr ter port

/-- One hardware write to a stimulus-port data register
(`ITM->PORT[port].u8/u16/u32 = v`). -/
inductive ITMPortWrite where
  | u8 : Nat → Nat → ITMPortWrite
  | u16 : Nat → Nat → ITMPortWrite
  | u32 : Nat → Nat → ITMPortWrite
deriving DecidableEq

/-- Width in bits of a port-register write. -/
def ITMPortWrite.width : ITMPortWrite → Nat
  | .u8 _ _ => 8
  | .u16 _ _ => 16
  | .u32 _ _ => 32

/-- Bytes of a port-register write, in little-endian transmission order. -/
def ITMPortWrite.bytes : ITMPortWrite → List Nat
  | .u8 _ v => [v % 2 ^ 8]
  | .u16 _ v => [v % 2 ^ 8, v / 2 ^ 8 % 2 ^ 8]
  | .u32 _ v => [v % 2 ^ 8, v / 2 ^ 8 % 2 ^ 8, v / 2 ^ 16 % 2 ^ 8, v / 2 ^ 24 % 2 ^ 8]

/-- `ITMWrite8` from `itm.h`: the list of port-register writes performed.
If the port is not enabled the function returns before touching any
register; otherwise it busy-waits on the port status (a read) and then
performs the single 8-bit write. -/
def ITMWrite8 (regs : ITMRegs) (port value : Nat) : List ITMPortWrite :=
  if ITMIsPortEnabled regs.TCR regs.TER port then [.u8 port value] else []

/-- `ITMWrite16` from `itm.h` (see `ITMWrite8`). -/
def ITMWrite16 (regs : ITMRegs) (port value : Nat) : List ITMPortWrite :=
  if ITMIsPortEnabled regs.TCR regs.TER port then [.u16 port value] else []

/-- `ITMWrite32` from `itm.h` (see `ITMWrite8`). -/
def ITMWrite32 (regs : ITMRegs) (port value : Nat) : List ITMPortWrite :=
  if ITMIsPortEnabled regs.TCR regs.TER port then [.u32 port value] else []

/-- Little-endian recomposition of two buffer bytes into a `uint16_t`
(the `memcpy(&v, buf8, 2)` in `ITMWriteBuffer`). -/
def le16 (b0 b1 : Nat) : Nat := b0 + b1 * 2 ^ 8

/-- Little-endian recomposition of four buffer bytes into a `uint32_t`
(the `memcpy(&v, buf8, 4)` in `ITMWriteBuffer`). -/
def le32 (b0 b1 b2 b3 : Nat) : Nat := b0 + b1 * 2 ^ 8 + b2 * 2 ^ 16 + b3 * 2 ^ 24

/-- The three chunking loops of `ITMWriteBuffer` (`itm.h`): 4-byte words
while at least four bytes remain, then 2-byte words while at least two
remain, then a final single byte.  Since the remainder after the first
loop is below four, the later patterns only fire on the tail. -/
def ITMWriteBufferChunks (port : Nat) : List Nat → List ITMPortWrite
  | b0 :: b1 :: b2 :: b3 :: rest =>
      ITMPortWrite.u32 port (le32 b0 b1 b2 b3) :: ITMWriteBufferChunks port rest
  | b0 :: b1 :: rest =>
      ITMPortWrite.u16 port (le16 b0 b1) :: ITMWriteBufferChunks port rest
  | [b0] => [ITMPortWrite.u8 port b0]
  | [] => []

/-- `ITMWriteBuffer` from `itm.h`: the list of port-register writes
performed on a buffer (given as its byte sequence). -/
def ITMWriteBuffer (regs : ITMRegs) (port : Nat) (buffer : List Nat) : List ITMPortWrite :=
  if ITMIsPortEnabled regs.TCR regs.TER port then ITMWriteBufferChunks port buffer else []

example : ITMWriteBufferChunks 0 [1, 2, 3, 4, 5, 6, 7] =
    [ITMPortWrite.u32 0 0x04030201, ITMPortWrite.u16 0 0x0605, ITMPortWrite.u8 0 7] := by
  decide

example : (ITMWriteBufferChunks 0 [1, 2, 3]).map ITMPortWrite.width = [16, 8] := by decide

example : ITMIsPortEnabled 1 0xFFFFFFFF 5 = true := by decide

example : ITMIsPortEnabled 1 0 5 = false := by decide

/-! ## DWT data model (`dwt.h`) -/

/-- `DWTSyncTap` enumeration from `dwt.h`. -/
inductive DWTSyncTap where
  | disabled
  | tap24
  | tap26
  | tap28
deriving DecidableEq

/-- Numeric value of the C enumerator (0, 1, 2, 3). -/
def DWTSyncTap.toNat : DWTSyncTap → Nat
  | .disabled => 0
  | .tap24 => 1
  | .tap26 => 2
  | .tap28 => 3

/-- `DWTCycleTap` enumeration from `dwt.h`. -/
inductive DWTCycleTap where
  | tap6
  | tap10
deriving DecidableEq

/-- Numeric value of the C enumerator (0, 1). -/
def DWTCycleTap.toNat : DWTCycleTap → Nat
  | .tap6 => 0
  | .tap10 => 1

/-- `DWTOptions` configuration record from `dwt.h`.  `SamplingPrescaler`
is a `uint8_t` with documented range 1–16. -/
structure DWTOptions where
  FoldedInstructionCounterEvent : Bool
  LSUCounterEvent : Bool
  SleepCounterEvent : Bool
  ExceptionOverheadCounterEvent : Bool
  CPICounterEvent : Bool
  ExceptionTrace : Bool
  PCSampling : Bool
  SyncTap : DWTSyncTap
  CycleTap : DWTCycleTap
  SamplingPrescaler : Nat

/-- The DWT-side registers touched by `dwt.h` (`CoreDebug->DEMCR`,
`DWT->LAR`, `DWT->CTRL` and the four comparator register triples), each
a 32-bit register. -/
structure DWTRegs where
  DEMCR : Nat
  LAR : Nat
  CTRL : Nat
  COMP0 : Nat
  MASK0 : Nat
  FUNCTION0 : Nat
  COMP1 : Nat
  MASK1 : Nat
  FUNCTION1 : Nat
  COMP2 : Nat
  MASK2 : Nat
  FUNCTION2 : Nat
  COMP3 : Nat
  MASK3 : Nat
  FUNCTION3 : Nat

/-- The `ctrl` control word built by `DWTSetup` (`dwt.h`, the sequence of
`ctrl |= ...` statements, in source order; the C ternaries `b ? 1 : 0`
become `boolToBit`, the enum casts with `& 3` become `.toNat &&& 3`). -/
def DWTCtrlWord (o : DWTOptions) : Nat :=
  boolToBit o.FoldedInstructionCounterEvent <<< DWT_CTRL_FOLDEVTENA_Pos
  ||| boolToBit o.LSUCounterEvent <<< DWT_CTRL_LSUEVTENA_Pos
  ||| boolToBit o.SleepCounterEvent <<< DWT_CTRL_SLEEPEVTENA_Pos
  ||| boolToBit o.ExceptionOverheadCounterEvent <<< DWT_CTRL_EXCEVTENA_Pos
  ||| boolToBit o.CPICounterEvent <<< DWT_CTRL_CPIEVTENA_Pos
  ||| boolToBit o.ExceptionTrace <<< DWT_CTRL_EXCTRCENA_Pos
  ||| boolToBit o.PCSampling <<< DWT_CTRL_PCSAMPLENA_Pos
  ||| (o.SyncTap.toNat &&& 3) <<< DWT_CTRL_SYNCTAP_Pos
  ||| (o.CycleTap.toNat &&& 3) <<< DWT_CTRL_CYCTAP_Pos
  ||| (o.SamplingPrescaler - 1) <<< DWT_CTRL_POSTPRESET_Pos
  ||| DWT_CTRL_CYCCNTENA_Msk

/-- `DWTSetup` from `dwt.h`: enables TRCENA in `DEMCR`, unlocks the unit
via `LAR` and overwrites `CTRL` with the built control word (a single
full-register write, no read-modify-write of `CTRL`). -/
def DWTSetup (regs : DWTRegs) (o : DWTOptions) : DWTRegs :=
  { regs with
    DEMCR := regs.DEMCR ||| CoreDebug_DEMCR_TRCENA_Msk
    LAR := 0xC5ACCE55
    CTRL := DWTCtrlWord o % 2 ^ 32 }

/-- `DWTEnableComparator` from `dwt.h`: builds `funcRaw` from the
function code and the emit-range flag, then writes the address, mask and
function registers of the selected comparator; the `switch` has cases
only for comparators 0–3 and does nothing for any other index.
`address` is a `uintptr_t` stored into a 32-bit register. -/
def DWTEnableComparator (regs : DWTRegs) (comparator address ignoreBits : Nat)
    (emitRange : Bool) (function : Nat) : DWTRegs :=
  let funcRaw := ((function <<< DWT_FUNCTION_FUNCTION_Pos) &&& DWT_FUNCTION_FUNCTION_Msk)
    ||| boolToBit emitRange <<< DWT_FUNCTION_EMITRANGE_Pos
  match comparator with
  | 0 => { regs with COMP0 := address % 2 ^ 32, MASK0 := ignoreBits % 2 ^ 32, FUNCTION0 := funcRaw }
  | 1 => { regs with COMP1 := address % 2 ^ 32, MASK1 := ignoreBits % 2 ^ 32, FUNCTION1 := funcRaw }
  | 2 => { regs with COMP2 := address % 2 ^ 32, MASK2 := ignoreBits % 2 ^ 32, FUNCTION2 := funcRaw }
  | 3 => { regs with COMP3 := address % 2 ^ 32, MASK3 := ignoreBits % 2 ^ 32, FUNCTION3 := funcRaw }
  | _ => regs

/-- `DWTDisableComparator` from `dwt.h`: writes 0 to the function
register of the selected comparator and touches nothing else; the
`switch` has cases only for comparators 0–3. -/
def DWTDisableComparator (regs : DWTRegs) (comparator : Nat) : DWTRegs :=
  match comparator with
  | 0 => { regs with FUNCTION0 := 0 }
  | 1 => { regs with FUNCTION1 := 0 }
  | 2 => { regs with FUNCTION2 := 0 }
  | 3 => { regs with FUNCTION3 := 0 }
  | _ => regs

/-- Read of the comparator address register selected by `index`. -/
def DWTCompRead (regs : DWTRegs) : Nat → Nat
  | 0 => regs.COMP0
  | 1 => regs.COMP1
  | 2 => regs.COMP2
  | 3 => regs.COMP3
  | _ => 0

/-- Read of the comparator mask (ignore-bit-count) register selected by
`index`. -/
def DWTMaskRead (regs : DWTRegs) : Nat → Nat
  | 0 => regs.MASK0
  | 1 => regs.MASK1
  | 2 => regs.MASK2
  | 3 => regs.MASK3
  | _ => 0

/-- Read of the comparator function register selected by `index`. -/
def DWTFunctionRead (regs : DWTRegs) : Nat → Nat
  | 0 => regs.FUNCTION0
  | 1 => regs.FUNCTION1
  | 2 => regs.FUNCTION2
  | 3 => regs.FUNCTION3
  | _ => 0

/-! ## TPIU data model (the `tpiu.h` header, `src/unnamed/part_000`) -/

/-- `TpiuProtocol` enumeration from the TPIU header. -/
inductive TpiuProtocol where
  | parallel
  | swoManchester
  | swoUart
deriving DecidableEq

/-- Numeric value of the C enumerator (0, 1, 2). -/
def TpiuProtocol.toNat : TpiuProtocol → Nat
  | .parallel => 0
  | .swoManchester => 1
  | .swoUart => 2

/-- `TpiuOptions` configuration record from the TPIU header.
`SwoPrescaler` is a C `int` (modelled for the non-negative range) and
`TracePortWidth` a `uint8_t`. -/
structure TpiuOptions where
  Protocol : TpiuProtocol
  FormattingEnabled : Bool
  SwoPrescaler : Nat
  TracePortWidth : Nat

/-- The TPIU-side registers touched by the TPIU header
(`CoreDebug->DEMCR`, `TPI->ACPR`, `TPI->SPPR`, `TPI->CSPSR`,
`TPI->FFCR`), each a 32-bit register. -/
structure TPIRegs where
  DEMCR : Nat
  ACPR : Nat
  SPPR : Nat
  CSPSR : Nat
  FFCR : Nat

/-- `TpiuSetup` from the TPIU header: enables TRCENA in `DEMCR`, writes
`SwoPrescaler - 1` to `ACPR`, the protocol number to `SPPR`, the one-hot
`1 << (TracePortWidth - 1)` to `CSPSR`, and sets or clears the
`EnFCont` bit of `FFCR` by read-modify-write (`|=` / `&= ~Msk`, the
complement taken at the 32-bit register width). -/
def TpiuSetup (regs : TPIRegs) (o : TpiuOptions) : TPIRegs :=
  { regs with
    DEMCR := regs.DEMCR ||| CoreDebug_DEMCR_TRCENA_Msk
    ACPR := (o.SwoPrescaler - 1) % 2 ^ 32
    SPPR := o.Protocol.toNat
    CSPSR := (1 <<< (o.TracePortWidth - 1)) % 2 ^ 32
    FFCR := if o.FormattingEnabled
      then regs.FFCR ||| TPI_FFCR_EnFCont_Msk
      else regs.FFCR &&& ((2 ^ 32 - 1) ^^^ TPI_FFCR_EnFCont_Msk) }

example : DWTCtrlWord
    { FoldedInstructionCounterEvent := false, LSUCounterEvent := false,
      SleepCounterEvent := false, ExceptionOverheadCounterEvent := false,
      CPICounterEvent := false, ExceptionTrace := true, PCSampling := true,
      SyncTap := .tap24, CycleTap := .tap10, SamplingPrescaler := 4 } =
    0x10000 + 0x1000 + 0x400 + 0x200 + 6 + 1 := by decide

/-! ## Helper lemmas -/

lemma boolToBit_le_one (b : Bool) : boolToBit b ≤ 1 := by
  cases b <;> simp [boolToBit]

lemma boolToBit_false : boolToBit false = 0 := rfl

lemma boolToBit_true : boolToBit true = 1 := rfl

/-- A bitwise or whose left operand is a multiple of `2 ^ k` and whose
right operand is below `2 ^ k` is a plain addition. -/
lemma or_step (p t k : Nat) (hp : 2 ^ k ∣ p) (ht : t < 2 ^ k) : p ||| t = p + t := by
  obtain ⟨a, rfl⟩ := hp
  exact (Nat.mul_add_lt_is_or ht a).symm

lemma syncTap_toNat_and_three (t : DWTSyncTap) : t.toNat &&& 3 = t.toNat := by
  cases t <;> decide

lemma DWTSyncTap.toNat_le_three (t : DWTSyncTap) : t.toNat ≤ 3 := by
  cases t <;> decide

lemma cycleTap_toNat_and_three (t : DWTCycleTap) : t.toNat &&& 3 = t.toNat := by
  cases t <;> decide

lemma DWTCycleTap.toNat_le_one (t : DWTCycleTap) : t.toNat ≤ 1 := by
  cases t <;> decide

lemma ITMWriteBufferChunks_nil (port : Nat) : ITMWriteBufferChunks port [] = [] := rfl

lemma ITMWriteBufferChunks_one (port b0 : Nat) :
    ITMWriteBufferChunks port [b0] = [ITMPortWrite.u8 port b0] := rfl

lemma ITMWriteBufferChunks_two (port b0 b1 : Nat) :
    ITMWriteBufferChunks port [b0, b1] = [ITMPortWrite.u16 port (le16 b0 b1)] := rfl

lemma ITMWriteBufferChunks_three (port b0 b1 b2 : Nat) :
    ITMWriteBufferChunks port [b0, b1, b2] =
      [ITMPortWrite.u16 port (le16 b0 b1), ITMPortWrite.u8 port b2] := rfl

lemma ITMWriteBufferChunks_cons4 (port b0 b1 b2 b3 : Nat) (rest : List Nat) :
    ITMWriteBufferChunks port (b0 :: b1 :: b2 :: b3 :: rest) =
      ITMPortWrite.u32 port (le32 b0 b1 b2 b3) :: ITMWriteBufferChunks port rest := rfl

/-- Chunk widths emitted by the three loops of `ITMWriteBuffer`:
`size / 4` 32-bit writes, one 16-bit write when `size % 4 >= 2`, one
8-bit write when `size` is odd. -/
lemma ITMWriteBufferChunks_widths (port : Nat) (buf : List Nat) :
    (ITMWriteBufferChunks port buf).map ITMPortWrite.width =
      List.replicate (buf.length / 4) 32
      ++ (if 2 ≤ buf.length % 4 then [16] else [])
      ++ (if buf.length % 2 = 1 then [8] else []) := by
  induction buf using ITMWriteBufferChunks.induct with
  | port => exact port
  | case1 b0 b1 b2 b3 rest ih =>
      simp only [ITMWriteBufferChunks_cons4, List.map_cons, ih, List.length_cons]
      simp only [show rest.length + 1 + 1 + 1 + 1 = rest.length + 4 by omega,
        show (rest.length + 4) / 4 = rest.length / 4 + 1 by omega,
        show (rest.length + 4) % 4 = rest.length % 4 by omega,
        show (rest.length + 4) % 2 = rest.length % 2 by omega,
        List.replicate_succ, List.cons_append, ITMPortWrite.width]
  | case2 b0 b1 rest h ih =>
      rcases rest with _ | ⟨r0, _ | ⟨r1, rtail⟩⟩
      · simp [ITMWriteBufferChunks_two, ITMPortWrite.width]
      · simp [ITMWriteBufferChunks_three, ITMPortWrite.width]
      · exact absurd rfl (h r0 r1 rtail)
  | case3 b0 => simp [ITMWriteBufferChunks_one, ITMPortWrite.width]
  | case4 => simp [ITMWriteBufferChunks_nil]

/-- The bytes of the chunks emitted by `ITMWriteBuffer`, concatenated in
transmission order, are exactly the buffer bytes. -/
lemma ITMWriteBufferChunks_bytes (port : Nat) (buf : List Nat) :
    (∀ b ∈ buf, b < 256) →
      ((ITMWriteBufferChunks port buf).map ITMPortWrite.bytes).flatten = buf := by
  induction buf using ITMWriteBufferChunks.induct with
  | port => exact port
  | case1 b0 b1 b2 b3 rest ih =>
      intro hb
      have h0 : b0 < 256 := hb b0 (by simp)
      have h1 : b1 < 256 := hb b1 (by simp)
      have h2 : b2 < 256 := hb b2 (by simp)
      have h3 : b3 < 256 := hb b3 (by simp)
      simp only [ITMWriteBufferChunks_cons4, List.map_cons, List.flatten_cons,
        ITMPortWrite.bytes]
      rw [ih (fun b hbm => hb b (by simp [hbm]))]
      rw [show le32 b0 b1 b2 b3 % 2 ^ 8 = b0 by simp only [le32]; omega,
        show le32 b0 b1 b2 b3 / 2 ^ 8 % 2 ^ 8 = b1 by simp only [le32]; omega,
        show le32 b0 b1 b2 b3 / 2 ^ 16 % 2 ^ 8 = b2 by simp only [le32]; omega,
        show le32 b0 b1 b2 b3 / 2 ^ 24 % 2 ^ 8 = b3 by simp only [le32]; omega]
      rfl
  | case2 b0 b1 rest h ih =>
      intro hb
      have h0 : b0 < 256 := hb b0 (by simp)
      have h1 : b1 < 256 := hb b1 (by simp)
      rcases rest with _ | ⟨r0, _ | ⟨r1, rtail⟩⟩
      · simp only [ITMWriteBufferChunks_two, List.map_cons, List.map_nil,
          List.flatten_cons, List.flatten_nil, ITMPortWrite.bytes]
        rw [show le16 b0 b1 % 2 ^ 8 = b0 by simp only [le16]; omega,
          show le16 b0 b1 / 2 ^ 8 % 2 ^ 8 = b1 by simp only [le16]; omega]
        rfl
      · have hr : r0 < 256 := hb r0 (by simp)
        simp only [ITMWriteBufferChunks_three, List.map_cons, List.map_nil,
          List.flatten_cons, List.flatten_nil, ITMPortWrite.bytes]
        rw [show le16 b0 b1 % 2 ^ 8 = b0 by simp only [le16]; omega,
          show le16 b0 b1 / 2 ^ 8 % 2 ^ 8 = b1 by simp only [le16]; omega,
          show r0 % 2 ^ 8 = r0 by omega]
        rfl
      · exact absurd rfl (h r0 r1 rtail)
  | case3 b0 =>
      intro hb
      have h0 : b0 < 256 := hb b0 (by simp)
      simp only [ITMWriteBufferChunks_one, List.map_cons, List.map_nil,
        List.flatten_cons, List.flatten_nil, ITMPortWrite.bytes]
      rw [show b0 % 2 ^ 8 = b0 by omega]
      rfl
  | case4 => intro hb; simp [ITMWriteBufferChunks_nil]

lemma bne_zero_and_one (x : Nat) : (x &&& 1 != 0) = x.testBit 0 := by
  rw [Nat.and_one_is_mod]
  rcases Nat.mod_two_eq_zero_or_one x with h | h <;>
    simp [h, Nat.testBit_to_div_mod]

lemma two_pow_ne_zero (i : Nat) : 2 ^ i ≠ 0 :=
  Nat.pos_iff_ne_zero.mp (Nat.two_pow_pos i)

lemma bne_zero_and_two_pow (x i : Nat) : (x &&& 2 ^ i != 0) = x.testBit i := by
  rw [Nat.and_two_pow]
  cases h : x.testBit i <;> simp [h, two_pow_ne_zero]

/-- The bit fields OR-ed together by `DWTSetup` are pairwise disjoint, so
the built control word is the corresponding sum. -/
lemma DWTCtrlWord_eq_sum (o : DWTOptions) (hp : o.SamplingPrescaler ≤ 255) :
    DWTCtrlWord o =
      boolToBit o.FoldedInstructionCounterEvent * 2 ^ 21
      + boolToBit o.LSUCounterEvent * 2 ^ 20
      + boolToBit o.SleepCounterEvent * 2 ^ 19
      + boolToBit o.ExceptionOverheadCounterEvent * 2 ^ 18
      + boolToBit o.CPICounterEvent * 2 ^ 17
      + boolToBit o.ExceptionTrace * 2 ^ 16
      + boolToBit o.PCSampling * 2 ^ 12
      + o.SyncTap.toNat * 2 ^ 10
      + o.CycleTap.toNat * 2 ^ 9
      + (o.SamplingPrescaler - 1) * 2
      + 1 := by
  obtain ⟨f1, f2, f3, f4, f5, f6, f7, st, ct, p⟩ := o
  simp only at hp
  have ha1 := boolToBit_le_one f1
  have ha2 := boolToBit_le_one f2
  have ha3 := boolToBit_le_one f3
  have ha4 := boolToBit_le_one f4
  have ha5 := boolToBit_le_one f5
  have ha6 := boolToBit_le_one f6
  have ha7 := boolToBit_le_one f7
  have hs := DWTSyncTap.toNat_le_three st
  have hc := DWTCycleTap.toNat_le_one ct
  simp only [DWTCtrlWord, DWT_CTRL_FOLDEVTENA_Pos, DWT_CTRL_LSUEVTENA_Pos,
    DWT_CTRL_SLEEPEVTENA_Pos, DWT_CTRL_EXCEVTENA_Pos, DWT_CTRL_CPIEVTENA_Pos,
    DWT_CTRL_EXCTRCENA_Pos, DWT_CTRL_PCSAMPLENA_Pos, DWT_CTRL_SYNCTAP_Pos,
    DWT_CTRL_CYCTAP_Pos, DWT_CTRL_POSTPRESET_Pos, DWT_CTRL_CYCCNTENA_Msk,
    syncTap_toNat_and_three, cycleTap_toNat_and_three, Nat.shiftLeft_eq]
  generalize hg1 : boolToBit f1 = a1 at ha1 ⊢
  generalize hg2 : boolToBit f2 = a2 at ha2 ⊢
  generalize hg3 : boolToBit f3 = a3 at ha3 ⊢
  generalize hg4 : boolToBit f4 = a4 at ha4 ⊢
  generalize hg5 : boolToBit f5 = a5 at ha5 ⊢
  generalize hg6 : boolToBit f6 = a6 at ha6 ⊢
  generalize hg7 : boolToBit f7 = a7 at ha7 ⊢
  generalize hgs : DWTSyncTap.toNat st = s at hs ⊢
  generalize hgc : DWTCycleTap.toNat ct = c at hc ⊢
  rw [or_step (a1 * 2 ^ 21) (a2 * 2 ^ 20) 21 (by omega) (by omega),
    or_step _ (a3 * 2 ^ 19) 20 (by omega) (by omega),
    or_step _ (a4 * 2 ^ 18) 19 (by omega) (by omega),
    or_step _ (a5 * 2 ^ 17) 18 (by omega) (by omega),
    or_step _ (a6 * 2 ^ 16) 17 (by omega) (by omega),
    or_step _ (a7 * 2 ^ 12) 16 (by omega) (by omega),
    or_step _ (s * 2 ^ 10) 12 (by omega) (by omega),
    or_step _ (c * 2 ^ 9) 10 (by omega) (by omega),
    or_step _ ((p - 1) * 2 ^ 1) 9 (by omega) (by omega),
    or_step _ 1 1 (by omega) (by omega)]

/-! ## Claim theorems -/

/-- C1 (code bug evidence): `ITMSetup` writes the constant `0xFFFFFFFF`
to `ITM->TER` even when the caller-supplied
`options->EnabledStimulusPorts` mask is `0`, so the port-enable register
does not equal the supplied mask; the header documents the field as
selecting exactly which ports are enabled (bit set to 0 means disabled),
which the implementation contradicts. -/
theorem ITMSetup_TER_ignores_mask :
    (ITMOptions.EnabledStimulusPorts ⟨0, .disabled, .noPrescaling, false, false, false, 0⟩ = 0)
    ∧ (ITMSetup ⟨0, 0, 0, 0⟩ ⟨0, .disabled, .noPrescaling, false, false, false, 0⟩).TER
        = 0xFFFFFFFF
    ∧ (0 : Nat) ≠ 0xFFFFFFFF :=
  ⟨rfl, rfl, by decide⟩

/-- C2: for every port below 32 and all register values,
`ITMIsPortEnabled` returns true iff both the global ITM-enable bit
(bit 0 of `TCR`) and bit `port` of `TER` are set.  The embedding
`ITMIsPortEnabled` is a function of exactly the two register values and
the port, matching the C body, which reads no other state and performs
no write. -/
theorem ITMIsPortEnabled_iff_bits (tcr ter port : Nat) (hport : port < 32) :
    ITMIsPortEnabled tcr ter port = (tcr.testBit 0 && ter.testBit port) := by
  unfold ITMIsPortEnabled ITMIsPortEnabledSem shl1Mod32 ITM_TCR_ITMENA_Msk
  rw [Nat.mod_eq_of_lt hport, Nat.shiftLeft_eq, one_mul,
    Nat.mod_eq_of_lt (Nat.pow_lt_pow_right (by norm_num) hport),
    bne_zero_and_one, bne_zero_and_two_pow]

/-- Witness for C2 at `tcr = 1`, `ter = 0xFFFFFFFF`, `port = 5`. -/
theorem ITMIsPortEnabled_iff_bits_witness :
    5 < 32 ∧ ITMIsPortEnabled 1 0xFFFFFFFF 5
      = (Nat.testBit 1 0 && Nat.testBit 0xFFFFFFFF 5) :=
  ⟨by decide, ITMIsPortEnabled_iff_bits 1 0xFFFFFFFF 5 (by decide)⟩

/-- C3: when the port is disabled, each of `ITMWrite8`, `ITMWrite16`,
`ITMWrite32` and `ITMWriteBuffer` returns immediately with an empty
write trace: no port register is written and no error is signalled
(the functions are `void`). -/
theorem ITMWrite_disabled_no_writes (regs : ITMRegs) (port v8 v16 v32 : Nat)
    (buf : List Nat) (h : ITMIsPortEnabled regs.TCR regs.TER port = false) :
    ITMWrite8 regs port v8 = [] ∧ ITMWrite16 regs port v16 = []
    ∧ ITMWrite32 regs port v32 = [] ∧ ITMWriteBuffer regs port buf = [] := by
  simp [ITMWrite8, ITMWrite16, ITMWrite32, ITMWriteBuffer, h]

/-- Witness for C3: port 5 disabled (`TER = 0`), writing `'X'` = 88. -/
theorem ITMWrite_disabled_no_writes_witness :
    ITMIsPortEnabled (ITMRegs.TCR ⟨0, 0, 1, 0⟩) (ITMRegs.TER ⟨0, 0, 1, 0⟩) 5 = false
    ∧ ITMWrite8 ⟨0, 0, 1, 0⟩ 5 88 = [] ∧ ITMWrite16 ⟨0, 0, 1, 0⟩ 5 1 = []
    ∧ ITMWrite32 ⟨0, 0, 1, 0⟩ 5 2 = [] ∧ ITMWriteBuffer ⟨0, 0, 1, 0⟩ 5 [3, 4] = [] :=
  ⟨by decide, ITMWrite_disabled_no_writes ⟨0, 0, 1, 0⟩ 5 88 1 2 [3, 4] (by decide)⟩

/-- C4: on an enabled port, `ITMWriteBuffer` emits `size / 4` 32-bit
writes, then one 16-bit write iff `size % 4 >= 2`, then one 8-bit write
iff `size` is odd, and the bytes of the emitted chunks concatenated in
transmission order equal the input buffer.  In particular a 7-byte
buffer yields widths `[32, 16, 8]` and an empty buffer yields no write. -/
theorem ITMWriteBuffer_packing (regs : ITMRegs) (port : Nat) (buf : List Nat)
    (hen : ITMIsPortEnabled regs.TCR regs.TER port = true)
    (hbytes : ∀ b ∈ buf, b < 256) :
    (ITMWriteBuffer regs port buf).map ITMPortWrite.width =
      List.replicate (buf.length / 4) 32
      ++ (if 2 ≤ buf.length % 4 then [16] else [])
      ++ (if buf.length % 2 = 1 then [8] else [])
    ∧ ((ITMWriteBuffer regs port buf).map ITMPortWrite.bytes).flatten = buf := by
  simp only [ITMWriteBuffer, hen, if_true]
  exact ⟨ITMWriteBufferChunks_widths port buf, ITMWriteBufferChunks_bytes port buf hbytes⟩

/-- Witness for C4 on a 7-byte buffer over an enabled port. -/
theorem ITMWriteBuffer_packing_witness :
    ITMIsPortEnabled 1 0xFFFFFFFF 0 = true
    ∧ (ITMWriteBuffer ⟨0, 0, 1, 0xFFFFFFFF⟩ 0 [1, 2, 3, 4, 5, 6, 7]).map ITMPortWrite.width
        = [32, 16, 8]
    ∧ ((ITMWriteBuffer ⟨0, 0, 1, 0xFFFFFFFF⟩ 0 [1, 2, 3, 4, 5, 6, 7]).map
        ITMPortWrite.bytes).flatten = [1, 2, 3, 4, 5, 6, 7] := by
  have h := ITMWriteBuffer_packing ⟨0, 0, 1, 0xFFFFFFFF⟩ 0 [1, 2, 3, 4, 5, 6, 7]
    (by decide) (by decide)
  exact ⟨by decide, by rw [h.1]; decide, h.2⟩

/-- C10: for every port in [32, 255] the guard `ITM->TER & (1 << port)`
shifts a 32-bit operand by 32 or more, which C leaves undefined; under
the modulo-32 shift semantics the check behaves exactly like the check
for `port % 32` (so such a port is not guaranteed to be treated as
disabled), while under the shift-to-zero semantics it is always
disabled, and there are register values on which the two semantics
disagree.  For `port < 32` the modelled semantics agree (C2's theorem
characterises the guard there). -/
theorem ITMIsPortEnabled_port_ge_32_undefined (tcr ter port : Nat)
    (h32 : 32 ≤ port) (h255 : port ≤ 255) :
    ITMIsPortEnabled tcr ter port = ITMIsPortEnabled tcr ter (port % 32)
    ∧ ITMIsPortEnabledSem shl1Zero tcr ter port = false
    ∧ ∃ tcr0 ter0,
        ITMIsPortEnabledSem shl1Mod32 tcr0 ter0 port
          ≠ ITMIsPortEnabledSem shl1Zero tcr0 ter0 port := by
  have hmm : port % 32 % 32 = port % 32 := by omega
  have hlt : port % 32 < 32 := by omega
  refine ⟨?_, ?_, 1, 2 ^ (port % 32), ?_⟩
  · unfold ITMIsPortEnabled ITMIsPortEnabledSem shl1Mod32
    rw [hmm]
  · unfold ITMIsPortEnabledSem shl1Zero
    rw [if_neg (by omega)]
    simp
  · unfold ITMIsPortEnabledSem shl1Mod32 shl1Zero ITM_TCR_ITMENA_Msk
    rw [Nat.shiftLeft_eq, one_mul,
      Nat.mod_eq_of_lt (Nat.pow_lt_pow_right (by norm_num) hlt),
      if_neg (by omega)]
    simp [two_pow_ne_zero]

/-- Witness for C10 at port 37 (which behaves like port 5 under
modulo-32 shift semantics). -/
theorem ITMIsPortEnabled_port_ge_32_undefined_witness :
    32 ≤ 37 ∧ 37 ≤ 255
    ∧ (ITMIsPortEnabled 1 32 37 = ITMIsPortEnabled 1 32 (37 % 32)
       ∧ ITMIsPortEnabledSem shl1Zero 1 32 37 = false
       ∧ ∃ tcr0 ter0,
           ITMIsPortEnabledSem shl1Mod32 tcr0 ter0 37
             ≠ ITMIsPortEnabledSem shl1Zero tcr0 ter0 37) :=
  ⟨by decide, by decide, ITMIsPortEnabled_port_ge_32_undefined 1 32 37 (by decide) (by decide)⟩

/-- C5: for every prescaler value in [1, 16], the 4-bit POSTPRESET field
of the control word written by `DWTSetup` is exactly the prescaler value
minus one. -/
theorem DWTSetup_prescaler_field (regs : DWTRegs) (o : DWTOptions)
    (h1 : 1 ≤ o.SamplingPrescaler) (h16 : o.SamplingPrescaler ≤ 16) :
    ((DWTSetup regs o).CTRL >>> DWT_CTRL_POSTPRESET_Pos) &&& 0xF
      = o.SamplingPrescaler - 1 := by
  have hb1 := boolToBit_le_one o.FoldedInstructionCounterEvent
  have hb2 := boolToBit_le_one o.LSUCounterEvent
  have hb3 := boolToBit_le_one o.SleepCounterEvent
  have hb4 := boolToBit_le_one o.ExceptionOverheadCounterEvent
  have hb5 := boolToBit_le_one o.CPICounterEvent
  have hb6 := boolToBit_le_one o.ExceptionTrace
  have hb7 := boolToBit_le_one o.PCSampling
  have hs := DWTSyncTap.toNat_le_three o.SyncTap
  have hc := DWTCycleTap.toNat_le_one o.CycleTap
  have hsum := DWTCtrlWord_eq_sum o (by omega)
  have hlt : DWTCtrlWord o < 2 ^ 32 := by rw [hsum]; omega
  show ((DWTCtrlWord o % 2 ^ 32) >>> DWT_CTRL_POSTPRESET_Pos) &&& 0xF
    = o.SamplingPrescaler - 1
  rw [Nat.mod_eq_of_lt hlt, DWT_CTRL_POSTPRESET_Pos, Nat.shiftRight_eq_div_pow,
    show (0xF : Nat) = 2 ^ 4 - 1 by norm_num, Nat.and_pow_two_sub_one_eq_mod, hsum]
  omega

/-- Witness for C5 at prescaler 4 (field reads 3). -/
theorem DWTSetup_prescaler_field_witness :
    1 ≤ 4 ∧ 4 ≤ 16
    ∧ ((DWTSetup ⟨0, 0, 0, 0, 0, 0, 0, 0, 0, 0, 0, 0, 0, 0, 0⟩
        ⟨false, false, false, false, false, false, false, .disabled, .tap6, 4⟩).CTRL
          >>> DWT_CTRL_POSTPRESET_Pos) &&& 0xF = 4 - 1 :=
  ⟨by decide, by decide,
    DWTSetup_prescaler_field ⟨0, 0, 0, 0, 0, 0, 0, 0, 0, 0, 0, 0, 0, 0, 0⟩
      ⟨false, false, false, false, false, false, false, .disabled, .tap6, 4⟩
      (by decide) (by decide)⟩

/-- C6: the control word written by `DWTSetup` carries each boolean flag
at exactly its documented bit position, independently of every other
field; it always contains the fixed CYCCNTENA bit (bit 0); the tap and
prescaler fields hold their values undisturbed; and the written word is
a function of the options alone — the previous register state does not
enter (single full write, no partial update). -/
theorem DWTSetup_ctrl_encoding (regs regs2 : DWTRegs) (o : DWTOptions)
    (h1 : 1 ≤ o.SamplingPrescaler) (h16 : o.SamplingPrescaler ≤ 16) :
    ((DWTSetup regs o).CTRL).testBit DWT_CTRL_FOLDEVTENA_Pos
        = o.FoldedInstructionCounterEvent
    ∧ ((DWTSetup regs o).CTRL).testBit DWT_CTRL_LSUEVTENA_Pos = o.LSUCounterEvent
    ∧ ((DWTSetup regs o).CTRL).testBit DWT_CTRL_SLEEPEVTENA_Pos = o.SleepCounterEvent
    ∧ ((DWTSetup regs o).CTRL).testBit DWT_CTRL_EXCEVTENA_Pos
        = o.ExceptionOverheadCounterEvent
    ∧ ((DWTSetup regs o).CTRL).testBit DWT_CTRL_CPIEVTENA_Pos = o.CPICounterEvent
    ∧ ((DWTSetup regs o).CTRL).testBit DWT_CTRL_EXCTRCENA_Pos = o.ExceptionTrace
    ∧ ((DWTSetup regs o).CTRL).testBit DWT_CTRL_PCSAMPLENA_Pos = o.PCSampling
    ∧ ((DWTSetup regs o).CTRL).testBit 0 = true
    ∧ ((DWTSetup regs o).CTRL >>> DWT_CTRL_SYNCTAP_Pos) &&& 3 = o.SyncTap.toNat
    ∧ ((DWTSetup regs o).CTRL >>> DWT_CTRL_CYCTAP_Pos) &&& 1 = o.CycleTap.toNat
    ∧ ((DWTSetup regs o).CTRL >>> DWT_CTRL_POSTPRESET_Pos) &&& 0xF
        = o.SamplingPrescaler - 1
    ∧ (DWTSetup regs o).CTRL = (DWTSetup regs2 o).CTRL := by
  have hb1 := boolToBit_le_one o.FoldedInstructionCounterEvent
  have hb2 := boolToBit_le_one o.LSUCounterEvent
  have hb3 := boolToBit_le_one o.SleepCounterEvent
  have hb4 := boolToBit_le_one o.ExceptionOverheadCounterEvent
  have hb5 := boolToBit_le_one o.CPICounterEvent
  have hb6 := boolToBit_le_one o.ExceptionTrace
  have hb7 := boolToBit_le_one o.PCSampling
  have hs := DWTSyncTap.toNat_le_three o.SyncTap
  have hc := DWTCycleTap.toNat_le_one o.CycleTap
  have hsum := DWTCtrlWord_eq_sum o (by omega)
  have hlt : DWTCtrlWord o < 2 ^ 32 := by rw [hsum]; omega
  have hctrl : (DWTSetup regs o).CTRL =
      boolToBit o.FoldedInstructionCounterEvent * 2 ^ 21
      + boolToBit o.LSUCounterEvent * 2 ^ 20
      + boolToBit o.SleepCounterEvent * 2 ^ 19
      + boolToBit o.ExceptionOverheadCounterEvent * 2 ^ 18
      + boolToBit o.CPICounterEvent * 2 ^ 17
      + boolToBit o.ExceptionTrace * 2 ^ 16
      + boolToBit o.PCSampling * 2 ^ 12
      + o.SyncTap.toNat * 2 ^ 10
      + o.CycleTap.toNat * 2 ^ 9
      + (o.SamplingPrescaler - 1) * 2
      + 1 := by
    show DWTCtrlWord o % 2 ^ 32 = _
    rw [Nat.mod_eq_of_lt hlt, hsum]
  refine ⟨?_, ?_, ?_, ?_, ?_, ?_, ?_, ?_, ?_, ?_, ?_, rfl⟩
  · rw [hctrl, DWT_CTRL_FOLDEVTENA_Pos, Nat.testBit_to_div_mod]
    cases hf : o.FoldedInstructionCounterEvent <;>
      simp only [boolToBit_false, boolToBit_true, decide_eq_true_eq,
        decide_eq_false_iff_not] <;> omega
  · rw [hctrl, DWT_CTRL_LSUEVTENA_Pos, Nat.testBit_to_div_mod]
    cases hf : o.LSUCounterEvent <;>
      simp only [boolToBit_false, boolToBit_true, decide_eq_true_eq,
        decide_eq_false_iff_not] <;> omega
  · rw [hctrl, DWT_CTRL_SLEEPEVTENA_Pos, Nat.testBit_to_div_mod]
    cases hf : o.SleepCounterEvent <;>
      simp only [boolToBit_false, boolToBit_true, decide_eq_true_eq,
        decide_eq_false_iff_not] <;> omega
  · rw [hctrl, DWT_CTRL_EXCEVTENA_Pos, Nat.testBit_to_div_mod]
    cases hf : o.ExceptionOverheadCounterEvent <;>
      simp only [boolToBit_false, boolToBit_true, decide_eq_true_eq,
        decide_eq_false_iff_not] <;> omega
  · rw [hctrl, DWT_CTRL_CPIEVTENA_Pos, Nat.testBit_to_div_mod]
    cases hf : o.CPICounterEvent <;>
      simp only [boolToBit_false, boolToBit_true, decide_eq_true_eq,
        decide_eq_false_iff_not] <;> omega
  · rw [hctrl, DWT_CTRL_EXCTRCENA_Pos, Nat.testBit_to_div_mod]
    cases hf : o.ExceptionTrace <;>
      simp only [boolToBit_false, boolToBit_true, decide_eq_true_eq,
        decide_eq_false_iff_not] <;> omega
  · rw [hctrl, DWT_CTRL_PCSAMPLENA_Pos, Nat.testBit_to_div_mod]
    cases hf : o.PCSampling <;>
      simp only [boolToBit_false, boolToBit_true, decide_eq_true_eq,
        decide_eq_false_iff_not] <;> omega
  · rw [hctrl, Nat.testBit_to_div_mod]
    simp only [decide_eq_true_eq]
    omega
  · rw [hctrl, DWT_CTRL_SYNCTAP_Pos, Nat.shiftRight_eq_div_pow,
      show (3 : Nat) = 2 ^ 2 - 1 by norm_num, Nat.and_pow_two_sub_one_eq_mod]
    omega
  · rw [hctrl, DWT_CTRL_CYCTAP_Pos, Nat.shiftRight_eq_div_pow,
      show (1 : Nat) = 2 ^ 1 - 1 by norm_num, Nat.and_pow_two_sub_one_eq_mod]
    omega
  · rw [hctrl, DWT_CTRL_POSTPRESET_Pos, Nat.shiftRight_eq_div_pow,
      show (0xF : Nat) = 2 ^ 4 - 1 by norm_num, Nat.and_pow_two_sub_one_eq_mod]
    omega

/-- Witness for C6 at a mixed flag assignment and prescaler 16. -/
theorem DWTSetup_ctrl_encoding_witness :
    1 ≤ 16 ∧ 16 ≤ 16
    ∧ (((DWTSetup ⟨0, 0, 0, 0, 0, 0, 0, 0, 0, 0, 0, 0, 0, 0, 0⟩
        ⟨true, false, true, false, true, false, true, .tap26, .tap10, 16⟩).CTRL).testBit
          DWT_CTRL_FOLDEVTENA_Pos = true
      ∧ ((DWTSetup ⟨0, 0, 0, 0, 0, 0, 0, 0, 0, 0, 0, 0, 0, 0, 0⟩
        ⟨true, false, true, false, true, false, true, .tap26, .tap10, 16⟩).CTRL).testBit
          DWT_CTRL_LSUEVTENA_Pos = false
      ∧ ((DWTSetup ⟨0, 0, 0, 0, 0, 0, 0, 0, 0, 0, 0, 0, 0, 0, 0⟩
        ⟨true, false, true, false, true, false, true, .tap26, .tap10, 16⟩).CTRL).testBit
          DWT_CTRL_SLEEPEVTENA_Pos = true
      ∧ ((DWTSetup ⟨0, 0, 0, 0, 0, 0, 0, 0, 0, 0, 0, 0, 0, 0, 0⟩
        ⟨true, false, true, false, true, false, true, .tap26, .tap10, 16⟩).CTRL).testBit
          DWT_CTRL_EXCEVTENA_Pos = false
      ∧ ((DWTSetup ⟨0, 0, 0, 0, 0, 0, 0, 0, 0, 0, 0, 0, 0, 0, 0⟩
        ⟨true, false, true, false, true, false, true, .tap26, .tap10, 16⟩).CTRL).testBit
          DWT_CTRL_CPIEVTENA_Pos = true
      ∧ ((DWTSetup ⟨0, 0, 0, 0, 0, 0, 0, 0, 0, 0, 0, 0, 0, 0, 0⟩
        ⟨true, false, true, false, true, false, true, .tap26, .tap10, 16⟩).CTRL).testBit
          DWT_CTRL_EXCTRCENA_Pos = false
      ∧ ((DWTSetup ⟨0, 0, 0, 0, 0, 0, 0, 0, 0, 0, 0, 0, 0, 0, 0⟩
        ⟨true, false, true, false, true, false, true, .tap26, .tap10, 16⟩).CTRL).testBit
          DWT_CTRL_PCSAMPLENA_Pos = true
      ∧ ((DWTSetup ⟨0, 0, 0, 0, 0, 0, 0, 0, 0, 0, 0, 0, 0, 0, 0⟩
        ⟨true, false, true, false, true, false, true, .tap26, .tap10, 16⟩).CTRL).testBit 0
          = true
      ∧ ((DWTSetup ⟨0, 0, 0, 0, 0, 0, 0, 0, 0, 0, 0, 0, 0, 0, 0⟩
        ⟨true, false, true, false, true, false, true, .tap26, .tap10, 16⟩).CTRL
          >>> DWT_CTRL_SYNCTAP_Pos) &&& 3 = DWTSyncTap.toNat .tap26
      ∧ ((DWTSetup ⟨0, 0, 0, 0, 0, 0, 0, 0, 0, 0, 0, 0, 0, 0, 0⟩
        ⟨true, false, true, false, true, false, true, .tap26, .tap10, 16⟩).CTRL
          >>> DWT_CTRL_CYCTAP_Pos) &&& 1 = DWTCycleTap.toNat .tap10
      ∧ ((DWTSetup ⟨0, 0, 0, 0, 0, 0, 0, 0, 0, 0, 0, 0, 0, 0, 0⟩
        ⟨true, false, true, false, true, false, true, .tap26, .tap10, 16⟩).CTRL
          >>> DWT_CTRL_POSTPRESET_Pos) &&& 0xF = 16 - 1
      ∧ (DWTSetup ⟨0, 0, 0, 0, 0, 0, 0, 0, 0, 0, 0, 0, 0, 0, 0⟩
        ⟨true, false, true, false, true, false, true, .tap26, .tap10, 16⟩).CTRL
          = (DWTSetup ⟨1, 1, 1, 1, 1, 1, 1, 1, 1, 1, 1, 1, 1, 1, 1⟩
        ⟨true, false, true, false, true, false, true, .tap26, .tap10, 16⟩).CTRL) :=
  ⟨by decide, by decide,
    DWTSetup_ctrl_encoding ⟨0, 0, 0, 0, 0, 0, 0, 0, 0, 0, 0, 0, 0, 0, 0⟩
      ⟨1, 1, 1, 1, 1, 1, 1, 1, 1, 1, 1, 1, 1, 1, 1⟩
      ⟨true, false, true, false, true, false, true, .tap26, .tap10, 16⟩
      (by decide) (by decide)⟩

/-- C7: for an implemented comparator index (0–3),
`DWTDisableComparator` zeroes that comparator's function register and
changes nothing else — every address and mask register (any index `j`)
and every other function register keeps its value; consequently an
enable followed by a disable leaves the function register 0 while the
address and mask registers still hold the enabled values. -/
theorem DWTDisableComparator_clears_only_function (s : DWTRegs) (i j addr bits f : Nat)
    (emit : Bool) (hi : i < 4) (haddr : addr < 2 ^ 32) (hbits : bits < 2 ^ 32) :
    DWTFunctionRead (DWTDisableComparator s i) i = 0
    ∧ DWTCompRead (DWTDisableComparator s i) j = DWTCompRead s j
    ∧ DWTMaskRead (DWTDisableComparator s i) j = DWTMaskRead s j
    ∧ (j ≠ i → DWTFunctionRead (DWTDisableComparator s i) j = DWTFunctionRead s j)
    ∧ DWTFunctionRead
        (DWTDisableComparator (DWTEnableComparator s i addr bits emit f) i) i = 0
    ∧ DWTCompRead
        (DWTDisableComparator (DWTEnableComparator s i addr bits emit f) i) i = addr
    ∧ DWTMaskRead
        (DWTDisableComparator (DWTEnableComparator s i addr bits emit f) i) i = bits := by
  interval_cases i <;>
    exact ⟨rfl,
      by rcases j with _ | _ | _ | _ | j <;> rfl,
      by rcases j with _ | _ | _ | _ | j <;> rfl,
      by intro hj; rcases j with _ | _ | _ | _ | j <;> first | rfl | exact absurd rfl hj,
      rfl,
      Nat.mod_eq_of_lt haddr,
      Nat.mod_eq_of_lt hbits⟩

/-- Witness for C7: the spec's round trip on comparator 1 with address
`0x20000000` and 2 ignored bits. -/
theorem DWTDisableComparator_clears_only_function_witness :
    1 < 4 ∧ 0x20000000 < 2 ^ 32 ∧ 2 < 2 ^ 32
    ∧ (DWTFunctionRead
        (DWTDisableComparator ⟨0, 0, 0, 0, 0, 0, 0, 0, 0, 0, 0, 0, 0, 0, 0⟩ 1) 1 = 0
      ∧ DWTCompRead (DWTDisableComparator ⟨0, 0, 0, 0, 0, 0, 0, 0, 0, 0, 0, 0, 0, 0, 0⟩ 1) 0
          = DWTCompRead ⟨0, 0, 0, 0, 0, 0, 0, 0, 0, 0, 0, 0, 0, 0, 0⟩ 0
      ∧ DWTMaskRead (DWTDisableComparator ⟨0, 0, 0, 0, 0, 0, 0, 0, 0, 0, 0, 0, 0, 0, 0⟩ 1) 0
          = DWTMaskRead ⟨0, 0, 0, 0, 0, 0, 0, 0, 0, 0, 0, 0, 0, 0, 0⟩ 0
      ∧ ((0 : Nat) ≠ 1 →
          DWTFunctionRead (DWTDisableComparator ⟨0, 0, 0, 0, 0, 0, 0, 0, 0, 0, 0, 0, 0, 0, 0⟩ 1) 0
            = DWTFunctionRead ⟨0, 0, 0, 0, 0, 0, 0, 0, 0, 0, 0, 0, 0, 0, 0⟩ 0)
      ∧ DWTFunctionRead
          (DWTDisableComparator
            (DWTEnableComparator ⟨0, 0, 0, 0, 0, 0, 0, 0, 0, 0, 0, 0, 0, 0, 0⟩ 1
              0x20000000 2 true 5) 1) 1 = 0
      ∧ DWTCompRead
          (DWTDisableComparator
            (DWTEnableComparator ⟨0, 0, 0, 0, 0, 0, 0, 0, 0, 0, 0, 0, 0, 0, 0⟩ 1
              0x20000000 2 true 5) 1) 1 = 0x20000000
      ∧ DWTMaskRead
          (DWTDisableComparator
            (DWTEnableComparator ⟨0, 0, 0, 0, 0, 0, 0, 0, 0, 0, 0, 0, 0, 0, 0⟩ 1
              0x20000000 2 true 5) 1) 1 = 2) :=
  ⟨by decide, by decide, by decide,
    DWTDisableComparator_clears_only_function ⟨0, 0, 0, 0, 0, 0, 0, 0, 0, 0, 0, 0, 0, 0, 0⟩
      1 0 0x20000000 2 5 true (by decide) (by decide) (by decide)⟩

/-- C8: for any comparator index above 3, `DWTEnableComparator` and
`DWTDisableComparator` leave the register state completely unchanged
(the `switch` has no matching case) and signal no error (the functions
are `void`). -/
theorem DWTComparator_out_of_range_noop (s : DWTRegs) (i addr bits f : Nat)
    (emit : Bool) (hi : 3 < i) :
    DWTEnableComparator s i addr bits emit f = s ∧ DWTDisableComparator s i = s := by
  obtain ⟨k, rfl⟩ : ∃ k, i = k + 4 := ⟨i - 4, by omega⟩
  exact ⟨rfl, rfl⟩

/-- Witness for C8 at comparator index 7. -/
theorem DWTComparator_out_of_range_noop_witness :
    3 < 7
    ∧ DWTEnableComparator ⟨0, 1, 2, 3, 4, 5, 6, 7, 8, 9, 10, 11, 12, 13, 14⟩ 7
        0x20000000 2 true 5 = ⟨0, 1, 2, 3, 4, 5, 6, 7, 8, 9, 10, 11, 12, 13, 14⟩
    ∧ DWTDisableComparator ⟨0, 1, 2, 3, 4, 5, 6, 7, 8, 9, 10, 11, 12, 13, 14⟩ 7
        = ⟨0, 1, 2, 3, 4, 5, 6, 7, 8, 9, 10, 11, 12, 13, 14⟩ :=
  ⟨by decide, DWTComparator_out_of_range_noop ⟨0, 1, 2, 3, 4, 5, 6, 7, 8, 9, 10, 11, 12, 13, 14⟩
    7 0x20000000 2 5 true (by decide)⟩

/-- C9: `TpiuSetup` writes `ACPR` as the supplied prescaler minus one,
`SPPR` as the protocol number, `CSPSR` as the one-hot pattern with bit
`width - 1` set, and updates exactly the formatting-enable bit (bit 1)
of `FFCR` — set when the flag is true, cleared when false — leaving
every other bit of `FFCR` as it was (read-modify-write). -/
theorem TpiuSetup_registers (regs : TPIRegs) (o : TpiuOptions) (j : Nat)
    (hpre1 : 1 ≤ o.SwoPrescaler) (hpre2 : o.SwoPrescaler ≤ 2 ^ 32)
    (hw1 : 1 ≤ o.TracePortWidth) (hw2 : o.TracePortWidth ≤ 32)
    (hffcr : regs.FFCR < 2 ^ 32) (hj : j ≠ 1) :
    (TpiuSetup regs o).ACPR = o.SwoPrescaler - 1
    ∧ (TpiuSetup regs o).SPPR = o.Protocol.toNat
    ∧ (TpiuSetup regs o).CSPSR = 2 ^ (o.TracePortWidth - 1)
    ∧ ((TpiuSetup regs o).FFCR).testBit 1 = o.FormattingEnabled
    ∧ ((TpiuSetup regs o).FFCR).testBit j = regs.FFCR.testBit j := by
  have hmsk : TPI_FFCR_EnFCont_Msk = 2 ^ 1 := rfl
  refine ⟨Nat.mod_eq_of_lt (by omega), rfl, ?_, ?_, ?_⟩
  · show (1 <<< (o.TracePortWidth - 1)) % 2 ^ 32 = 2 ^ (o.TracePortWidth - 1)
    rw [Nat.shiftLeft_eq, one_mul,
      Nat.mod_eq_of_lt (Nat.pow_lt_pow_right (by norm_num) (by omega))]
  · show (if o.FormattingEnabled then regs.FFCR ||| TPI_FFCR_EnFCont_Msk
      else regs.FFCR &&& ((2 ^ 32 - 1) ^^^ TPI_FFCR_EnFCont_Msk)).testBit 1
        = o.FormattingEnabled
    cases hf : o.FormattingEnabled
    · rw [if_neg (by decide), hmsk, Nat.testBit_and, Nat.testBit_xor,
        Nat.testBit_two_pow_sub_one, Nat.testBit_two_pow]
      simp
    · rw [if_pos (by decide), hmsk, Nat.testBit_or, Nat.testBit_two_pow]
      simp
  · show (if o.FormattingEnabled then regs.FFCR ||| TPI_FFCR_EnFCont_Msk
      else regs.FFCR &&& ((2 ^ 32 - 1) ^^^ TPI_FFCR_EnFCont_Msk)).testBit j
        = regs.FFCR.testBit j
    cases hf : o.FormattingEnabled
    · rw [if_neg (by decide), hmsk, Nat.testBit_and, Nat.testBit_xor,
        Nat.testBit_two_pow_sub_one, Nat.testBit_two_pow]
      by_cases hj32 : j < 32
      · simp [hj32, Ne.symm hj]
      · have hhi : regs.FFCR.testBit j = false :=
          Nat.testBit_lt_two_pow
            (lt_of_lt_of_le hffcr (Nat.pow_le_pow_right (by norm_num) (by omega)))
        simp [hhi, hj32]
    · rw [if_pos (by decide), hmsk, Nat.testBit_or, Nat.testBit_two_pow]
      simp [Ne.symm hj]

/-- Witness for C9: UART protocol, prescaler 8, width 1, formatting on,
prior `FFCR` with an unrelated bit set (bit 8), checked at `j = 8`. -/
theorem TpiuSetup_registers_witness :
    1 ≤ 8 ∧ 8 ≤ 2 ^ 32 ∧ 1 ≤ 1 ∧ 1 ≤ 32 ∧ 256 < 2 ^ 32 ∧ (8 : Nat) ≠ 1
    ∧ ((TpiuSetup ⟨0, 0, 0, 0, 256⟩ ⟨.swoUart, true, 8, 1⟩).ACPR = 8 - 1
      ∧ (TpiuSetup ⟨0, 0, 0, 0, 256⟩ ⟨.swoUart, true, 8, 1⟩).SPPR = TpiuProtocol.toNat .swoUart
      ∧ (TpiuSetup ⟨0, 0, 0, 0, 256⟩ ⟨.swoUart, true, 8, 1⟩).CSPSR = 2 ^ (1 - 1)
      ∧ ((TpiuSetup ⟨0, 0, 0, 0, 256⟩ ⟨.swoUart, true, 8, 1⟩).FFCR).testBit 1 = true
      ∧ ((TpiuSetup ⟨0, 0, 0, 0, 256⟩ ⟨.swoUart, true, 8, 1⟩).FFCR).testBit 8
          = (256 : Nat).testBit 8) :=
  ⟨by decide, by decide, by decide, by decide, by decide, by decide,
    TpiuSetup_registers ⟨0, 0, 0, 0, 256⟩ ⟨.swoUart, true, 8, 1⟩ 8
      (by decide) (by decide) (by decide) (by decide) (by decide) (by decide)⟩
